import Mathlib

/-!
Shallow embedding of the `prodatalab/ecommerce` repository fragment:
the PayPal payment-processor adapter
(`ecommerce/extensions/payment/processors/paypal.py`) and the
assignment-email API endpoint
(`ecommerce/extensions/api/v2/views/assignmentemail.py`).

Remote gateway calls are modelled by passing the gateway's response as an
input; stateful effects (audit records, log lines, ledger get-or-create)
are modelled as explicit outputs.
-/

namespace Ecommerce

/-! ## Decimal numbers

Models Python's `decimal.Decimal` as used by the source: a scaled integer
`mantissa / 10 ^ scale`.  `Decimal("19.99")` is `⟨1999, 2⟩`; the string
rendering (`unicode(d)` in the source) preserves the scale, so `⟨2500, 2⟩`
renders as `"25.00"`.
-/

structure PyDecimal where
  mantissa : Int
  scale : Nat
  deriving Repr, DecidableEq

/-- The exact rational value of a decimal. -/
def PyDecimal.toRat (d : PyDecimal) : ℚ := (d.mantissa : ℚ) / (10 : ℚ) ^ d.scale

/-- Digit value of a character, `'0'` ↦ 0, ..., `'9'` ↦ 9. -/
def digitVal (c : Char) : Nat := c.toNat - 48

/-- The natural number denoted by a list of decimal digit characters
(most significant first). -/
def natFromDigits (l : List Char) : Nat :=
  l.foldl (fun a c => 10 * a + digitVal c) 0

/-- Split a character list at the first `'.'`: the characters before it and,
when a dot exists, the characters after it. -/
def splitAtDot : List Char → List Char × Option (List Char)
  | [] => ([], none)
  | c :: cs =>
    if c = '.' then ([], some cs)
    else
      let r := splitAtDot cs
      (c :: r.1, r.2)

/-- Parse an unsigned decimal literal: digits, optionally with one dot, at
least one digit overall (`"19.99"`, `"19."`, `".99"`, `"19"`).  Any other
character (including a second dot) is rejected, as Python's
`decimal.Decimal` rejects it. -/
def parseUnsignedDec (l : List Char) : Option PyDecimal :=
  let p := splitAtDot l
  match p.2 with
  | none =>
    if l ≠ [] ∧ l.all Char.isDigit then some ⟨(natFromDigits l : Nat), 0⟩ else none
  | some fp =>
    if p.1.all Char.isDigit ∧ fp.all Char.isDigit ∧ (p.1 ≠ [] ∨ fp ≠ []) then
      some ⟨(natFromDigits (p.1 ++ fp) : Nat), fp.length⟩
    else none

/-- Models `decimal.Decimal(s)` on the string forms the gateway returns:
an optional sign followed by an unsigned decimal literal.  `none` models
Python raising `InvalidOperation`. -/
def pyDecimalOfString (s : String) : Option PyDecimal :=
  let l := s.toList
  if l.head? = some '-' then
    (parseUnsignedDec l.tail).map fun d => ⟨-d.mantissa, d.scale⟩
  else if l.head? = some '+' then parseUnsignedDec l.tail
  else parseUnsignedDec l

/-- String rendering of a decimal, as Python's `unicode(d)` renders a
`Decimal`: the scale is preserved (`⟨2500, 2⟩` renders `"25.00"`,
`⟨99, 2⟩` renders `"0.99"`). -/
def PyDecimal.toStr (d : PyDecimal) : String :=
  let n := d.mantissa.natAbs
  let ds := Nat.toDigits 10 n
  let ds := if ds.length ≤ d.scale then List.replicate (d.scale + 1 - ds.length) '0' ++ ds else ds
  let core :=
    if d.scale = 0 then String.mk ds
    else String.mk (ds.take (ds.length - d.scale)) ++ "." ++ String.mk (ds.drop (ds.length - d.scale))
  if d.mantissa < 0 then "-" ++ core else core

/-! ## URL joining

Models Python 2's `urlparse.urljoin` for the reference shapes used by the
adapter: an absolute `url` wins; a root-relative `url` (leading `/`) is
joined to the scheme and network location of `base`; otherwise `url`
replaces the last path segment of `base`. -/

def urljoin (base url : String) : String :=
  if (url.splitOn "://").length > 1 then url
  else if url.startsWith "/" then
    match base.splitOn "://" with
    | [scheme, rest] => scheme ++ "://" ++ ((rest.splitOn "/").headD "") ++ url
    | _ => url
  else
    String.intercalate "/" ((base.splitOn "/").dropLast) ++ "/" ++ url

/-! ## Data model (from the source and spec §3) -/

/-- A purchasable product (`line.product`). -/
structure Product where
  title : String
  deriving Repr, DecidableEq

/-- A stock record (`line.stockrecord`). -/
structure StockRecord where
  price_currency : String
  deriving Repr, DecidableEq

/-- One basket line (`basket.all_lines()` element). -/
structure BasketLine where
  quantity : Nat
  product : Product
  price_incl_tax : PyDecimal
  stockrecord : StockRecord
  deriving Repr, DecidableEq

/-- A basket of products being purchased. -/
structure Basket where
  id : Nat
  total_incl_tax : PyDecimal
  currency : String
  lines : List BasketLine
  deriving Repr, DecidableEq

/-- `basket.all_lines()`. -/
def Basket.all_lines (b : Basket) : List BasketLine := b.lines

/-! ## Gateway responses (paypalrestsdk objects, modelled as data) -/

/-- A HATEOAS link in a gateway response (`link.rel`, `link.href`). -/
structure Link where
  rel : String
  href : String
  deriving Repr, DecidableEq

/-- The gateway error object (`payment.error`); the adapter reads its
`debug_id`. -/
structure PaypalError where
  debug_id : String
  deriving Repr, DecidableEq

/-- The gateway's response to a create-payment call, as the adapter reads
it: `payment.success()`, `payment.id`, `payment.links`, `payment.error`. -/
structure CreateResponse where
  success : Bool
  id : String
  links : List Link
  error : PaypalError
  deriving Repr, DecidableEq

/-- `payment.transactions[0].amount` on an executed payment. -/
structure ExecAmount where
  currency : String
  total : String
  deriving Repr, DecidableEq

/-- One transaction of an executed payment. -/
structure ExecTransaction where
  amount : ExecAmount
  deriving Repr, DecidableEq

/-- The gateway's response to an execute-payment call, as the adapter
reads it: `payment.success()`, `payment.id`, `payment.error`,
`payment.transactions`, `payment.payer.payer_info.email`. -/
structure ExecuteResponse where
  success : Bool
  id : String
  error : PaypalError
  transactions : List ExecTransaction
  payer_email : String
  deriving Repr, DecidableEq

/-! ## Create-payment payload (the `data` dict of
`get_transaction_parameters`) -/

/-- `transactions[0].amount` of the creation payload. -/
structure PayloadAmount where
  total : String
  currency : String
  deriving Repr, DecidableEq

/-- One item of the creation payload's `item_list`. -/
structure PayloadItem where
  quantity : Nat
  name : String
  price : String
  currency : String
  deriving Repr, DecidableEq

/-- One transaction of the creation payload. -/
structure PayloadTransaction where
  amount : PayloadAmount
  item_list : List PayloadItem
  invoice_number : String
  deriving Repr, DecidableEq

/-- The `redirect_urls` entry of the creation payload. -/
structure RedirectUrls where
  return_url : String
  cancel_url : String
  deriving Repr, DecidableEq

/-- The full creation payload (`data` in `get_transaction_parameters`). -/
structure CreatePayload where
  intent : String
  redirect_urls : RedirectUrls
  payer_payment_method : String
  transactions : List PayloadTransaction
  deriving Repr, DecidableEq

/-! ## Audit records, logs, ledger -/

/-- The raw response payload stored in an audit record: the error dict on
failure, `payment.to_dict()` on success. -/
inductive RawPayload where
  | errorPayload (e : PaypalError)
  | createPayload (p : CreateResponse)
  | executePayload (p : ExecuteResponse)
  deriving Repr, DecidableEq

/-- Modelled from the spec: `record_processor_response` lives in
`BasePaymentProcessor` (`ecommerce/extensions/payment/processors`), which
is not part of the fragment.  Spec §6: audit store is a write-only append
API `record(rawPayload, transactionId, basket) → entryId`; §3: a
ProcessorResponse carries a transaction identifier, the raw response
payload and the associated basket reference.  Entry ids are assigned
sequentially by the store. -/
structure ProcessorResponse where
  id : Nat
  transaction_id : String
  raw : RawPayload
  basket_id : Option Nat
  deriving Repr, DecidableEq

/-- Log lines emitted by the adapter, with the data they interpolate. -/
inductive LogMsg where
  | createFailed (basketId : Nat) (entryId : Nat)
  | createSucceeded (paymentId : String) (basketId : Nat)
  | approvalUrlMissing (paymentId : String) (entryId : Nat)
  | executeFailed (paymentId : String) (entryId : Nat)
  | executeSucceeded (paymentId : String) (basketId : Nat)
  deriving Repr, DecidableEq

/-- Exceptions the adapter's paths can raise: `GatewayError` from
`oscar.apps.payment.exceptions`, plus the Python runtime errors of the
success path (`basket.id` on `None`, `transactions[0]` on an empty list,
`Decimal(...)` on a malformed string). -/
inductive PyError where
  | gatewayError
  | attributeError
  | indexError
  | invalidOperation
  deriving Repr, DecidableEq

/-- A confirmed payment's claim against a basket (`Source(...)` in
`handle_processor_response`); the `source_type` field carries the
SourceType's name. -/
structure SourceRec where
  source_type : String
  currency : String
  amount_allocated : PyDecimal
  amount_debited : PyDecimal
  reference : String
  label : String
  card_type : Option String
  deriving Repr, DecidableEq

/-- A record that a payment occurred (`PaymentEvent(...)`); the
`event_type` field carries the PaymentEventType's name. -/
structure PaymentEventRec where
  event_type : String
  amount : PyDecimal
  reference : String
  processor_name : String
  deriving Repr, DecidableEq

/-- The persistent ledger state touched by the adapter: the name sets of
the `SourceType` and `PaymentEventType` tables (targets of
`get_or_create`) and the saved `Source` / `PaymentEvent` rows, which the
adapter constructs but never saves. -/
structure LedgerState where
  sourceTypeNames : List String
  eventTypeNames : List String
  savedSources : List SourceRec
  savedEvents : List PaymentEventRec
  deriving Repr, DecidableEq

/-- `Model.objects.get_or_create(name=n)` on a table modelled as its list
of names: appends `n` when absent. -/
def getOrCreate (names : List String) (n : String) : List String :=
  if n ∈ names then names else names ++ [n]

/-- Modelled from the spec: `PaymentEventTypeName.PAID` comes from
`ecommerce/extensions/order/constants`, which is not part of the
fragment.  Spec §3: the event-type tag is `"paid"`. -/
def PaymentEventTypeName.PAID : String := "paid"

/-! ## The Paypal processor -/

/-- `Paypal.NAME`. -/
def Paypal.NAME : String := "paypal"

/-- The processor's configuration, read in `Paypal.__init__`:
`receipt_url` and `cancel_url` from `self.configuration`, and
`settings.ECOMMERCE_URL_ROOT`.  `paypal_execute_path` is modelled from
the spec: `reverse('paypal_execute')` resolves through URL routing
outside the fragment; spec §4.1 calls it "a fixed route". -/
structure PaypalConfig where
  receipt_url : String
  cancel_url : String
  ecommerce_url_root : String
  paypal_execute_path : String
  deriving Repr, DecidableEq

/-- One item of the creation payload, built from one basket line
(`get_transaction_parameters`, the `item_list` comprehension). -/
def itemOfLine (line : BasketLine) : PayloadItem :=
  { quantity := line.quantity
    name := line.product.title
    price := line.price_incl_tax.toStr
    currency := line.stockrecord.price_currency }

/-- The `data` dict built by `get_transaction_parameters` before the
create call. -/
def buildCreatePayload (cfg : PaypalConfig) (basket : Basket) : CreatePayload :=
  { intent := "sale"
    redirect_urls :=
      { return_url := urljoin cfg.ecommerce_url_root cfg.paypal_execute_path
        cancel_url := cfg.cancel_url }
    payer_payment_method := "paypal"
    transactions :=
      [{ amount := { total := basket.total_incl_tax.toStr, currency := basket.currency }
         item_list := basket.all_lines.map itemOfLine
         invoice_number := Nat.repr basket.id }] }

instance {ε α : Type} [DecidableEq ε] [DecidableEq α] : DecidableEq (Except ε α) := fun x y =>
  match x, y with
  | .ok a, .ok b =>
    if h : a = b then .isTrue (congrArg Except.ok h)
    else .isFalse (fun he => h (Except.ok.inj he))
  | .error a, .error b =>
    if h : a = b then .isTrue (congrArg Except.error h)
    else .isFalse (fun he => h (Except.error.inj he))
  | .ok _, .error _ => .isFalse (fun he => Except.noConfusion he)
  | .error _, .ok _ => .isFalse (fun he => Except.noConfusion he)

/-- Everything one `get_transaction_parameters` call produces: the payload
sent to the gateway, the audit records written, the log lines emitted,
and either the returned parameter dict (as key/value pairs) or the raised
exception. -/
structure TxnResult where
  payload : CreatePayload
  audits : List ProcessorResponse
  logs : List LogMsg
  result : Except PyError (List (String × String))
  deriving Repr, DecidableEq

/-- `Paypal.get_transaction_parameters(basket, request)`.  The remote
create call is modelled by `gw`, mapping the payload sent to the
gateway's response; `nextEntryId` is the audit store's next entry id. -/
def Paypal.get_transaction_parameters (cfg : PaypalConfig) (basket : Basket)
    (gw : CreatePayload → CreateResponse) (nextEntryId : Nat) : TxnResult :=
  let data := buildCreatePayload cfg basket
  let payment := gw data
  if payment.success then
    let entry : ProcessorResponse :=
      { id := nextEntryId, transaction_id := payment.id
        raw := .createPayload payment, basket_id := some basket.id }
    let logs := [LogMsg.createSucceeded payment.id basket.id]
    match payment.links.find? (fun l => l.rel = "approval_url") with
    | some link =>
      { payload := data, audits := [entry], logs := logs
        result := .ok [("payment_page_url", link.href)] }
    | none =>
      { payload := data, audits := [entry]
        logs := logs ++ [LogMsg.approvalUrlMissing payment.id nextEntryId]
        result := .error .gatewayError }
  else
    let entry : ProcessorResponse :=
      { id := nextEntryId, transaction_id := payment.error.debug_id
        raw := .errorPayload payment.error, basket_id := some basket.id }
    { payload := data, audits := [entry]
      logs := [LogMsg.createFailed basket.id nextEntryId]
      result := .error .gatewayError }

/-- Everything one `handle_processor_response` call produces: audit
records, log lines, the ledger state after the call, and either the
returned `(Source, PaymentEvent)` pair or the raised exception. -/
structure HandleResult where
  audits : List ProcessorResponse
  logs : List LogMsg
  ledger : LedgerState
  result : Except PyError (SourceRec × PaymentEventRec)
  deriving Repr, DecidableEq

/-- `Paypal.handle_processor_response(response, basket)`.  The remote
`Payment.find` + `payment.execute` pair is modelled by its outcome
`payment`; `ledger` is the persistent state before the call and
`nextEntryId` the audit store's next entry id.  The success path follows
the source's statement order: success log (`basket.id`, so an
`AttributeError` when `basket` is `None`), `SourceType` get-or-create,
`transactions[0]` access, `Decimal` parse, `Source` construction,
`PaymentEventType` get-or-create, `PaymentEvent` construction. -/
def Paypal.handle_processor_response (payment : ExecuteResponse)
    (basket : Option Basket) (ledger : LedgerState) (nextEntryId : Nat) : HandleResult :=
  if payment.success then
    let entry : ProcessorResponse :=
      { id := nextEntryId, transaction_id := payment.id
        raw := .executePayload payment, basket_id := basket.map Basket.id }
    match basket with
    | none => { audits := [entry], logs := [], ledger := ledger, result := .error .attributeError }
    | some b =>
      let logs := [LogMsg.executeSucceeded payment.id b.id]
      let ledger1 := { ledger with sourceTypeNames := getOrCreate ledger.sourceTypeNames Paypal.NAME }
      match payment.transactions with
      | [] => { audits := [entry], logs := logs, ledger := ledger1, result := .error .indexError }
      | txn :: _ =>
        match pyDecimalOfString txn.amount.total with
        | none => { audits := [entry], logs := logs, ledger := ledger1, result := .error .invalidOperation }
        | some total =>
          let source : SourceRec :=
            { source_type := Paypal.NAME, currency := txn.amount.currency
              amount_allocated := total, amount_debited := total
              reference := payment.id, label := payment.payer_email, card_type := none }
          let ledger2 := { ledger1 with eventTypeNames := getOrCreate ledger1.eventTypeNames PaymentEventTypeName.PAID }
          let event : PaymentEventRec :=
            { event_type := PaymentEventTypeName.PAID, amount := total
              reference := payment.id, processor_name := Paypal.NAME }
          { audits := [entry], logs := logs, ledger := ledger2, result := .ok (source, event) }
  else
    let entry : ProcessorResponse :=
      { id := nextEntryId, transaction_id := payment.error.debug_id
        raw := .errorPayload payment.error, basket_id := basket.map Basket.id }
    { audits := [entry], logs := [LogMsg.executeFailed payment.id nextEntryId]
      ledger := ledger, result := .error .gatewayError }

/-! ## The assignment-email endpoint
(`ecommerce/extensions/api/v2/views/assignmentemail.py`) -/

/-- The parts of an incoming request the endpoint reads: the posted data
and the query parameters, each a string-keyed dict. -/
structure EmailRequest where
  data : List (String × String)
  query_params : List (String × String)
  deriving Repr, DecidableEq

/-- `dict.get(key)`: the value at the first matching key, when present. -/
def dictGet (l : List (String × String)) (key : String) : Option String :=
  (l.find? (fun p => p.1 = key)).map (fun p => p.2)

/-- `AssignmentEmail.REQUIRED_PARAM_EMAIL`. -/
def AssignmentEmail.REQUIRED_PARAM_EMAIL : String := "user_email"

/-- `AssignmentEmail.REQUIRED_PARAM_ENTERPRISE_NAME`. -/
def AssignmentEmail.REQUIRED_PARAM_ENTERPRISE_NAME : String := "enterprise_name"

/-- `AssignmentEmail.REQUIRED_PARAM_CODE`. -/
def AssignmentEmail.REQUIRED_PARAM_CODE : String := "code"

/-- `AssignmentEmail.REQUIRED_PARAM_ENROLLMENT_URL`. -/
def AssignmentEmail.REQUIRED_PARAM_ENROLLMENT_URL : String := "enrollment_url"

/-- Python exceptions raised inside the endpoint: the view's own
`BadRequestException` and the runtime errors the source actually
triggers (`TypeError` from a wrong-arity call, `NameError` from an
unbound name). -/
inductive PyException where
  | badRequestException (msg : String)
  | typeError (detail : String)
  | nameError (name : String)
  deriving Repr, DecidableEq

/-- The body of `AssignmentEmail.get_request_value` (lines 27–31) as
written: the value under `key` in the posted data, else in the query
parameters, else `default`.  This body never runs in the program: the
def is missing its `self` parameter, so every call site
(`self.get_request_value(request, KEY, '')`, lines 41–44) passes four
positional arguments — the bound instance, the request, the key and the
default — to a three-parameter function, and Python raises `TypeError`
before the body is entered. -/
def AssignmentEmail.get_request_value (request : EmailRequest) (key : String)
    (default : String) : String :=
  match dictGet request.data key with
  | some v => v
  | none =>
    match dictGet request.query_params key with
    | some v => v
    | none => default

/-- `AssignmentEmail.get_missing_params_message` (lines 56–61).  Dead
code in the program: its only caller sits after the `TypeError` raised
at line 41 (see `get_required_query_params`). -/
def AssignmentEmail.get_missing_params_message
    (parameter_state : List (String × Bool)) : String :=
  "Some required parameter(s) missing: " ++
    String.intercalate ", " ((parameter_state.filter (fun p => !p.2)).map (fun p => p.1))

/-- `AssignmentEmail.get_required_query_params` (lines 33–54).  Its
first statement, `self.get_request_value(request,
self.REQUIRED_PARAM_EMAIL, '')` (line 41), calls the three-parameter
`get_request_value` as a bound method with four positional arguments,
so Python raises `TypeError` before any parameter is read; the
parameter lookups, the presence check and the `BadRequestException` of
lines 41–53 are all unreachable. -/
def AssignmentEmail.get_required_query_params (request : EmailRequest) :
    Except PyException (String × String × String × String) :=
  .error (.typeError "get_request_value() takes at most 3 arguments (4 given)")

/-- The HTTP outcome of one `AssignmentEmail.post` call.  `uncaught`
models a Python exception escaping the view uncaught: neither a 200 nor
one of the view's own 400/500 responses. -/
inductive PostOutcome where
  | badRequest (body_error : String)
  | uncaught (e : PyException)
  | ok (data : List (String × String))
  | serverError (body_error : String)
  deriving Repr, DecidableEq

/-- `AssignmentEmail.post(request)` (lines 63–129).  `mailOk` models
whether the mail transport would succeed (`mail.send_mail` not raising
`SMTPException`).

The `try:` around `get_required_query_params` catches only
`BadRequestException` (line 88), so the `TypeError` raised at line 41
propagates out of the view on every request and the 400 branch is dead
code.  Were validation ever to succeed, the next statement (line 91)
evaluates `_`, which is never imported or bound in the module, raising
`NameError`; and the echo dict at lines 103–108 reads the likewise
unbound local `email` — all before the `try:` block that sends the
mail, so the 200 and 500 responses are unreachable too. -/
def AssignmentEmail.post (request : EmailRequest) (mailOk : Bool) : PostOutcome :=
  match AssignmentEmail.get_required_query_params request with
  | .error (.badRequestException invalid_request) => .badRequest invalid_request
  | .error e => .uncaught e
  | .ok _ => .uncaught (.nameError "_")

/-! ## Concrete fixtures (spec §8's worked example: basket 42, one line,
25.00 USD) -/

/-- A concrete processor configuration. -/
def sampleCfg : PaypalConfig :=
  { receipt_url := "http://ecom.example/receipt"
    cancel_url := "http://ecom.example/checkout/cancel/"
    ecommerce_url_root := "http://ecom.example"
    paypal_execute_path := "/payment/paypal/execute/" }

/-- One basket line: qty 1, "Course X", 25.00 USD. -/
def sampleLine : BasketLine :=
  { quantity := 1, product := ⟨"Course X"⟩
    price_incl_tax := ⟨2500, 2⟩, stockrecord := ⟨"USD"⟩ }

/-- Basket 42: one line, total 25.00 USD. -/
def sampleBasket : Basket :=
  { id := 42, total_incl_tax := ⟨2500, 2⟩, currency := "USD", lines := [sampleLine] }

/-- A successful create response with an approval link. -/
def sampleCreateOk : CreateResponse :=
  { success := true, id := "PAY-1"
    links := [⟨"approval_url", "https://paypal.example/approve"⟩]
    error := ⟨""⟩ }

/-- A failed create response with error debug id "ERR1" (spec §8's
failure example). -/
def sampleCreateFail : CreateResponse :=
  { success := false, id := "", links := [], error := ⟨"ERR1"⟩ }

/-- A successful create response with no approval link. -/
def sampleCreateNoLink : CreateResponse :=
  { success := true, id := "PAY-2", links := [⟨"self", "https://paypal.example/self"⟩]
    error := ⟨""⟩ }

/-- A successful execute response: one transaction of 19.99 USD. -/
def sampleExecOk : ExecuteResponse :=
  { success := true, id := "PAY-1", error := ⟨""⟩
    transactions := [⟨⟨"USD", "19.99"⟩⟩]
    payer_email := "bob@alice.com" }

/-- A failed execute response with error debug id "ERR2". -/
def sampleExecFail : ExecuteResponse :=
  { success := false, id := "PAY-1", error := ⟨"ERR2"⟩
    transactions := [], payer_email := "" }

/-- An empty ledger. -/
def emptyLedger : LedgerState :=
  { sourceTypeNames := [], eventTypeNames := [], savedSources := [], savedEvents := [] }

/-! ## Helper lemmas -/

/-- The payload sent to the gateway is `buildCreatePayload` on every
branch of `get_transaction_parameters`. -/
theorem payload_eq_build (cfg : PaypalConfig) (basket : Basket)
    (gw : CreatePayload → CreateResponse) (n : Nat) :
    (Paypal.get_transaction_parameters cfg basket gw n).payload = buildCreatePayload cfg basket := by
  unfold Paypal.get_transaction_parameters
  cases h : (gw (buildCreatePayload cfg basket)).success <;> simp [h]
  cases hf : ((gw (buildCreatePayload cfg basket)).links.find? fun l => l.rel = "approval_url") <;>
    simp [hf]

/-- Folding the digit-accumulation step from `a` shifts `a` by the length
of the digit list. -/
theorem foldl_digits_shift (f : List Char) : ∀ a : Nat,
    List.foldl (fun a c => 10 * a + digitVal c) a f = a * 10 ^ f.length + natFromDigits f := by
  induction f with
  | nil => intro a; simp [natFromDigits]
  | cons c cs ih =>
    intro a
    simp only [List.foldl_cons, List.length_cons, natFromDigits] at *
    rw [ih (10 * a + digitVal c), ih (10 * 0 + digitVal c)]
    ring

/-- Concatenating digit lists multiplies the head value by `10 ^ |f|`. -/
theorem natFromDigits_append (i f : List Char) :
    natFromDigits (i ++ f) = natFromDigits i * 10 ^ f.length + natFromDigits f := by
  unfold natFromDigits
  rw [List.foldl_append]
  exact foldl_digits_shift f _

/-- `splitAtDot` splits exactly at the first dot. -/
theorem splitAtDot_append (i f : List Char) (hi : '.' ∉ i) :
    splitAtDot (i ++ '.' :: f) = (i, some f) := by
  induction i with
  | nil => simp [splitAtDot]
  | cons c cs ih =>
    have hc : ¬ c = '.' := fun h => hi (h ▸ List.mem_cons_self c cs)
    have hcs : '.' ∉ cs := fun h => hi (List.mem_cons_of_mem c h)
    simp [splitAtDot, hc, ih hcs]

/-- A list of digit characters contains no dot. -/
theorem dot_not_mem_of_all_digit (i : List Char) (hi : i.all Char.isDigit = true) :
    '.' ∉ i := by
  intro hmem
  have h := List.all_eq_true.mp hi _ hmem
  exact absurd h (by decide)

/-- A digit character is not a minus sign. -/
theorem digit_ne_dash {c : Char} (h : c.isDigit = true) : c ≠ '-' := by
  intro he; subst he; exact absurd h (by decide)

/-- A digit character is not a plus sign. -/
theorem digit_ne_plus {c : Char} (h : c.isDigit = true) : c ≠ '+' := by
  intro he; subst he; exact absurd h (by decide)

/-- Parsing `i ++ "." ++ f` for digit lists `i`, `f` (with `f` nonempty)
yields mantissa `natFromDigits (i ++ f)` at scale `|f|`. -/
theorem parseUnsignedDec_digits (i f : List Char) (hi : i.all Char.isDigit = true)
    (hf : f.all Char.isDigit = true) (hfne : f ≠ []) :
    parseUnsignedDec (i ++ '.' :: f) =
      some ⟨(natFromDigits (i ++ f) : Int), f.length⟩ := by
  simp only [parseUnsignedDec, splitAtDot_append i f (dot_not_mem_of_all_digit i hi)]
  simp [hi, hf, hfne]

/-- `pyDecimalOfString` on a digits-dot-digits string yields mantissa
`natFromDigits (i ++ f)` at scale `|f|`. -/
theorem pyDecimalOfString_digits (s : String) (i f : List Char)
    (hs : s.toList = i ++ '.' :: f)
    (hi : i.all Char.isDigit = true) (hf : f.all Char.isDigit = true) (hfne : f ≠ []) :
    pyDecimalOfString s = some ⟨(natFromDigits (i ++ f) : Int), f.length⟩ := by
  unfold pyDecimalOfString
  rw [hs]
  cases i with
  | nil =>
    simpa using parseUnsignedDec_digits [] f hi hf hfne
  | cons c cs =>
    have hc : c.isDigit = true := by
      have := List.all_eq_true.mp hi c (List.mem_cons_self c cs)
      simpa using this
    simp only [List.cons_append, List.head?_cons, Option.some.injEq]
    rw [if_neg (fun h => digit_ne_dash hc h), if_neg (fun h => digit_ne_plus hc h)]
    exact parseUnsignedDec_digits (c :: cs) f hi hf hfne

/-- The rational value of the parsed decimal is exactly integer part plus
fraction part over `10 ^ |f|`. -/
theorem pyDecimal_digits_toRat (i f : List Char) :
    (PyDecimal.mk (natFromDigits (i ++ f) : Int) f.length).toRat =
      (natFromDigits i : ℚ) + (natFromDigits f : ℚ) / 10 ^ f.length := by
  unfold PyDecimal.toRat
  rw [natFromDigits_append]
  have h10 : ((10 : ℚ) ^ f.length) ≠ 0 := by positivity
  push_cast
  field_simp

/-! ## Claims about `get_transaction_parameters` (initiate) -/

/-- C1: every call to `get_transaction_parameters` records exactly one
ProcessorResponse audit record, whether the gateway reports success or
failure (and whether or not an approval link is present); in the failure
branches that record appears in the call's output alongside the raised
`GatewayError`, i.e. it is written before the error propagates. -/
theorem C1_initiate_exactly_one_audit (cfg : PaypalConfig) (basket : Basket)
    (gw : CreatePayload → CreateResponse) (n : Nat) :
    (Paypal.get_transaction_parameters cfg basket gw n).audits.length = 1 := by
  unfold Paypal.get_transaction_parameters
  cases h : (gw (buildCreatePayload cfg basket)).success <;> simp [h]
  cases hf : ((gw (buildCreatePayload cfg basket)).links.find? fun l => l.rel = "approval_url") <;>
    simp [hf]

/-- C2: for a basket with at least one line and positive total, the
creation payload has exactly one transaction, whose amount total is the
basket's tax-inclusive total (its decimal rendering), whose currency is
the basket's, whose item list has one item per basket line carrying that
line's quantity, product title, unit price and stockrecord currency, and
whose invoice number is the basket id; the payload's intent is "sale",
its payer method is the gateway name, its return URL joins the
configured root URL with the fixed execute route, and its cancel URL is
the configured one. -/
theorem C2_initiate_payload_shape (cfg : PaypalConfig) (basket : Basket)
    (gw : CreatePayload → CreateResponse) (n : Nat)
    (hlines : basket.lines ≠ []) (hpos : 0 < basket.total_incl_tax.toRat) :
    ∃ t, (Paypal.get_transaction_parameters cfg basket gw n).payload.transactions = [t] ∧
      t.amount.total = basket.total_incl_tax.toStr ∧
      t.amount.currency = basket.currency ∧
      t.item_list = basket.lines.map (fun line =>
        { quantity := line.quantity, name := line.product.title
          price := line.price_incl_tax.toStr
          currency := line.stockrecord.price_currency }) ∧
      t.item_list.length = basket.lines.length ∧
      t.invoice_number = Nat.repr basket.id ∧
      (Paypal.get_transaction_parameters cfg basket gw n).payload.intent = "sale" ∧
      (Paypal.get_transaction_parameters cfg basket gw n).payload.payer_payment_method = Paypal.NAME ∧
      (Paypal.get_transaction_parameters cfg basket gw n).payload.redirect_urls.return_url =
        urljoin cfg.ecommerce_url_root cfg.paypal_execute_path ∧
      (Paypal.get_transaction_parameters cfg basket gw n).payload.redirect_urls.cancel_url =
        cfg.cancel_url := by
  rw [payload_eq_build]
  refine ⟨_, rfl, rfl, rfl, ?_, ?_, rfl, rfl, rfl, rfl, rfl⟩
  · simp [buildCreatePayload, Basket.all_lines, itemOfLine]
  · simp [buildCreatePayload, Basket.all_lines, itemOfLine]

/-- Witness for C2 at the spec's worked example (basket 42, one line,
total 25.00). -/
theorem C2_witness :
    sampleBasket.lines ≠ [] ∧ 0 < sampleBasket.total_incl_tax.toRat ∧
    ∃ t, (Paypal.get_transaction_parameters sampleCfg sampleBasket (fun _ => sampleCreateOk) 0).payload.transactions = [t] ∧
      t.amount.total = sampleBasket.total_incl_tax.toStr ∧
      t.amount.currency = sampleBasket.currency ∧
      t.item_list = sampleBasket.lines.map (fun line =>
        { quantity := line.quantity, name := line.product.title
          price := line.price_incl_tax.toStr
          currency := line.stockrecord.price_currency }) ∧
      t.item_list.length = sampleBasket.lines.length ∧
      t.invoice_number = Nat.repr sampleBasket.id ∧
      (Paypal.get_transaction_parameters sampleCfg sampleBasket (fun _ => sampleCreateOk) 0).payload.intent = "sale" ∧
      (Paypal.get_transaction_parameters sampleCfg sampleBasket (fun _ => sampleCreateOk) 0).payload.payer_payment_method = Paypal.NAME ∧
      (Paypal.get_transaction_parameters sampleCfg sampleBasket (fun _ => sampleCreateOk) 0).payload.redirect_urls.return_url =
        urljoin sampleCfg.ecommerce_url_root sampleCfg.paypal_execute_path ∧
      (Paypal.get_transaction_parameters sampleCfg sampleBasket (fun _ => sampleCreateOk) 0).payload.redirect_urls.cancel_url =
        sampleCfg.cancel_url :=
  ⟨by decide, by norm_num [sampleBasket, PyDecimal.toRat],
    C2_initiate_payload_shape sampleCfg sampleBasket (fun _ => sampleCreateOk) 0
      (by decide) (by norm_num [sampleBasket, PyDecimal.toRat])⟩

/-- C3: when the gateway reports failure on create, the call records
exactly one audit entry, whose transaction id is the error's `debug_id`,
logs the basket id together with the audit entry id, and raises
`GatewayError` — returning no transaction parameters. -/
theorem C3_initiate_create_failure (cfg : PaypalConfig) (basket : Basket)
    (gw : CreatePayload → CreateResponse) (n : Nat)
    (hfail : (gw (buildCreatePayload cfg basket)).success = false) :
    (Paypal.get_transaction_parameters cfg basket gw n).audits =
      [{ id := n
         transaction_id := (gw (buildCreatePayload cfg basket)).error.debug_id
         raw := .errorPayload (gw (buildCreatePayload cfg basket)).error
         basket_id := some basket.id }] ∧
    (Paypal.get_transaction_parameters cfg basket gw n).logs =
      [LogMsg.createFailed basket.id n] ∧
    (Paypal.get_transaction_parameters cfg basket gw n).result = .error .gatewayError := by
  unfold Paypal.get_transaction_parameters
  simp [hfail]

/-- Witness for C3: create fails with debug id "ERR1" (spec §8's
failure example). -/
theorem C3_witness :
    ((fun _ => sampleCreateFail) (buildCreatePayload sampleCfg sampleBasket) : CreateResponse).success = false ∧
    ((Paypal.get_transaction_parameters sampleCfg sampleBasket (fun _ => sampleCreateFail) 7).audits =
      [{ id := 7
         transaction_id := ((fun _ => sampleCreateFail) (buildCreatePayload sampleCfg sampleBasket) : CreateResponse).error.debug_id
         raw := .errorPayload ((fun _ => sampleCreateFail) (buildCreatePayload sampleCfg sampleBasket) : CreateResponse).error
         basket_id := some sampleBasket.id }] ∧
    (Paypal.get_transaction_parameters sampleCfg sampleBasket (fun _ => sampleCreateFail) 7).logs =
      [LogMsg.createFailed sampleBasket.id 7] ∧
    (Paypal.get_transaction_parameters sampleCfg sampleBasket (fun _ => sampleCreateFail) 7).result =
      .error .gatewayError) :=
  ⟨by decide, C3_initiate_create_failure sampleCfg sampleBasket (fun _ => sampleCreateFail) 7 (by decide)⟩

/-- C4: when the gateway reports success on create but no link has rel
"approval_url", the call logs the payment id with the audit entry id and
raises `GatewayError`. -/
theorem C4_initiate_no_approval_url (cfg : PaypalConfig) (basket : Basket)
    (gw : CreatePayload → CreateResponse) (n : Nat)
    (hsucc : (gw (buildCreatePayload cfg basket)).success = true)
    (hno : ∀ l ∈ (gw (buildCreatePayload cfg basket)).links, l.rel ≠ "approval_url") :
    (Paypal.get_transaction_parameters cfg basket gw n).logs =
      [LogMsg.createSucceeded (gw (buildCreatePayload cfg basket)).id basket.id,
       LogMsg.approvalUrlMissing (gw (buildCreatePayload cfg basket)).id n] ∧
    (Paypal.get_transaction_parameters cfg basket gw n).result = .error .gatewayError := by
  have hfind : (gw (buildCreatePayload cfg basket)).links.find? (fun l => l.rel = "approval_url") = none := by
    rw [List.find?_eq_none]
    intro l hl
    simpa using hno l hl
  unfold Paypal.get_transaction_parameters
  simp [hsucc, hfind]

/-- Witness for C4: create succeeds but only a "self" link is present. -/
theorem C4_witness :
    ((fun _ => sampleCreateNoLink) (buildCreatePayload sampleCfg sampleBasket) : CreateResponse).success = true ∧
    (∀ l ∈ ((fun _ => sampleCreateNoLink) (buildCreatePayload sampleCfg sampleBasket) : CreateResponse).links,
      l.rel ≠ "approval_url") ∧
    ((Paypal.get_transaction_parameters sampleCfg sampleBasket (fun _ => sampleCreateNoLink) 3).logs =
      [LogMsg.createSucceeded ((fun _ => sampleCreateNoLink) (buildCreatePayload sampleCfg sampleBasket) : CreateResponse).id sampleBasket.id,
       LogMsg.approvalUrlMissing ((fun _ => sampleCreateNoLink) (buildCreatePayload sampleCfg sampleBasket) : CreateResponse).id 3] ∧
    (Paypal.get_transaction_parameters sampleCfg sampleBasket (fun _ => sampleCreateNoLink) 3).result =
      .error .gatewayError) :=
  ⟨by decide, by decide,
    C4_initiate_no_approval_url sampleCfg sampleBasket (fun _ => sampleCreateNoLink) 3
      (by decide) (by decide)⟩

/-- C5: when the gateway reports success on create and its links contain
an approval link (the first such link found), the call returns a dict
whose sole entry maps "payment_page_url" to that link's href. -/
theorem C5_initiate_returns_approval_url (cfg : PaypalConfig) (basket : Basket)
    (gw : CreatePayload → CreateResponse) (n : Nat) (link : Link)
    (hsucc : (gw (buildCreatePayload cfg basket)).success = true)
    (hfind : (gw (buildCreatePayload cfg basket)).links.find? (fun l => l.rel = "approval_url") = some link) :
    (Paypal.get_transaction_parameters cfg basket gw n).result =
      .ok [("payment_page_url", link.href)] := by
  unfold Paypal.get_transaction_parameters
  simp [hsucc, hfind]

/-- Witness for C5: create succeeds with an approval link. -/
theorem C5_witness :
    ((fun _ => sampleCreateOk) (buildCreatePayload sampleCfg sampleBasket) : CreateResponse).success = true ∧
    ((fun _ => sampleCreateOk) (buildCreatePayload sampleCfg sampleBasket) : CreateResponse).links.find?
      (fun l => l.rel = "approval_url") = some ⟨"approval_url", "https://paypal.example/approve"⟩ ∧
    (Paypal.get_transaction_parameters sampleCfg sampleBasket (fun _ => sampleCreateOk) 0).result =
      .ok [("payment_page_url", (⟨"approval_url", "https://paypal.example/approve"⟩ : Link).href)] :=
  ⟨by decide, by decide,
    C5_initiate_returns_approval_url sampleCfg sampleBasket (fun _ => sampleCreateOk) 0
      ⟨"approval_url", "https://paypal.example/approve"⟩ (by decide) (by decide)⟩

/-! ## Claims about `handle_processor_response` (confirm) -/

/-- C6: on a successful execute (gateway reports success, a basket is
supplied, the response has a first transaction whose total parses as a
decimal), the returned Source has amount_allocated = amount_debited =
the transaction's total, reference = the gateway payment id, label = the
payer's email and card type none; the returned PaymentEvent has the same
amount and reference, event type "paid" and processor name equal to the
gateway name. -/
theorem C6_confirm_success_source_event (payment : ExecuteResponse) (b : Basket)
    (ledger : LedgerState) (n : Nat) (txn : ExecTransaction) (rest : List ExecTransaction)
    (total : PyDecimal)
    (hsucc : payment.success = true)
    (htx : payment.transactions = txn :: rest)
    (hparse : pyDecimalOfString txn.amount.total = some total) :
    (Paypal.handle_processor_response payment (some b) ledger n).result =
      .ok ({ source_type := Paypal.NAME, currency := txn.amount.currency
             amount_allocated := total, amount_debited := total
             reference := payment.id, label := payment.payer_email, card_type := none },
           { event_type := PaymentEventTypeName.PAID, amount := total
             reference := payment.id, processor_name := Paypal.NAME }) := by
  unfold Paypal.handle_processor_response
  simp [hsucc, htx, hparse]

/-- Witness for C6: execute succeeds with one 19.99 USD transaction. -/
theorem C6_witness :
    sampleExecOk.success = true ∧
    sampleExecOk.transactions = (⟨⟨"USD", "19.99"⟩⟩ : ExecTransaction) :: [] ∧
    pyDecimalOfString (⟨⟨"USD", "19.99"⟩⟩ : ExecTransaction).amount.total = some ⟨1999, 2⟩ ∧
    (Paypal.handle_processor_response sampleExecOk (some sampleBasket) emptyLedger 1).result =
      .ok ({ source_type := Paypal.NAME, currency := (⟨⟨"USD", "19.99"⟩⟩ : ExecTransaction).amount.currency
             amount_allocated := ⟨1999, 2⟩, amount_debited := ⟨1999, 2⟩
             reference := sampleExecOk.id, label := sampleExecOk.payer_email, card_type := none },
           { event_type := PaymentEventTypeName.PAID, amount := ⟨1999, 2⟩
             reference := sampleExecOk.id, processor_name := Paypal.NAME }) :=
  ⟨by decide, by decide, by decide,
    C6_confirm_success_source_event sampleExecOk sampleBasket emptyLedger 1
      ⟨⟨"USD", "19.99"⟩⟩ [] ⟨1999, 2⟩ (by decide) (by decide) (by decide)⟩

/-- C8: the successful execute path persists nothing beyond the
create-if-absent SourceType record (gateway name) and PaymentEventType
record ("paid"): the saved Source and PaymentEvent rows are untouched
(the returned pair is constructed, not saved), exactly the one audit
record is written, and the call returns a Source/PaymentEvent pair. -/
theorem C8_confirm_success_frame (payment : ExecuteResponse) (b : Basket)
    (ledger : LedgerState) (n : Nat) (txn : ExecTransaction) (rest : List ExecTransaction)
    (total : PyDecimal)
    (hsucc : payment.success = true)
    (htx : payment.transactions = txn :: rest)
    (hparse : pyDecimalOfString txn.amount.total = some total) :
    (Paypal.handle_processor_response payment (some b) ledger n).ledger.sourceTypeNames =
      getOrCreate ledger.sourceTypeNames Paypal.NAME ∧
    (Paypal.handle_processor_response payment (some b) ledger n).ledger.eventTypeNames =
      getOrCreate ledger.eventTypeNames PaymentEventTypeName.PAID ∧
    (Paypal.handle_processor_response payment (some b) ledger n).ledger.savedSources =
      ledger.savedSources ∧
    (Paypal.handle_processor_response payment (some b) ledger n).ledger.savedEvents =
      ledger.savedEvents ∧
    (Paypal.handle_processor_response payment (some b) ledger n).audits.length = 1 ∧
    ∃ sv, (Paypal.handle_processor_response payment (some b) ledger n).result = .ok sv := by
  unfold Paypal.handle_processor_response
  simp [hsucc, htx, hparse]

/-- Witness for C8 at the 19.99 USD execute response. -/
theorem C8_witness :
    sampleExecOk.success = true ∧
    sampleExecOk.transactions = (⟨⟨"USD", "19.99"⟩⟩ : ExecTransaction) :: [] ∧
    pyDecimalOfString (⟨⟨"USD", "19.99"⟩⟩ : ExecTransaction).amount.total = some ⟨1999, 2⟩ ∧
    ((Paypal.handle_processor_response sampleExecOk (some sampleBasket) emptyLedger 1).ledger.sourceTypeNames =
      getOrCreate emptyLedger.sourceTypeNames Paypal.NAME ∧
    (Paypal.handle_processor_response sampleExecOk (some sampleBasket) emptyLedger 1).ledger.eventTypeNames =
      getOrCreate emptyLedger.eventTypeNames PaymentEventTypeName.PAID ∧
    (Paypal.handle_processor_response sampleExecOk (some sampleBasket) emptyLedger 1).ledger.savedSources =
      emptyLedger.savedSources ∧
    (Paypal.handle_processor_response sampleExecOk (some sampleBasket) emptyLedger 1).ledger.savedEvents =
      emptyLedger.savedEvents ∧
    (Paypal.handle_processor_response sampleExecOk (some sampleBasket) emptyLedger 1).audits.length = 1 ∧
    ∃ sv, (Paypal.handle_processor_response sampleExecOk (some sampleBasket) emptyLedger 1).result = .ok sv) :=
  ⟨by decide, by decide, by decide,
    C8_confirm_success_frame sampleExecOk sampleBasket emptyLedger 1
      ⟨⟨"USD", "19.99"⟩⟩ [] ⟨1999, 2⟩ (by decide) (by decide) (by decide)⟩

/-- C9: when the gateway reports failure on execute, the call records
exactly one audit entry whose transaction id is the error's `debug_id`,
logs the payment id with the entry id, raises `GatewayError`, leaves the
ledger (source types, event types, saved Sources and PaymentEvents)
unchanged, and returns no Source/PaymentEvent pair. -/
theorem C9_confirm_execute_failure (payment : ExecuteResponse) (basket : Option Basket)
    (ledger : LedgerState) (n : Nat)
    (hfail : payment.success = false) :
    (Paypal.handle_processor_response payment basket ledger n).audits =
      [{ id := n, transaction_id := payment.error.debug_id
         raw := .errorPayload payment.error, basket_id := basket.map Basket.id }] ∧
    (Paypal.handle_processor_response payment basket ledger n).logs =
      [LogMsg.executeFailed payment.id n] ∧
    (Paypal.handle_processor_response payment basket ledger n).ledger = ledger ∧
    (Paypal.handle_processor_response payment basket ledger n).result = .error .gatewayError := by
  unfold Paypal.handle_processor_response
  simp [hfail]

/-- Witness for C9: execute fails with debug id "ERR2". -/
theorem C9_witness :
    sampleExecFail.success = false ∧
    ((Paypal.handle_processor_response sampleExecFail (some sampleBasket) emptyLedger 5).audits =
      [{ id := 5, transaction_id := sampleExecFail.error.debug_id
         raw := .errorPayload sampleExecFail.error, basket_id := (some sampleBasket).map Basket.id }] ∧
    (Paypal.handle_processor_response sampleExecFail (some sampleBasket) emptyLedger 5).logs =
      [LogMsg.executeFailed sampleExecFail.id 5] ∧
    (Paypal.handle_processor_response sampleExecFail (some sampleBasket) emptyLedger 5).ledger = emptyLedger ∧
    (Paypal.handle_processor_response sampleExecFail (some sampleBasket) emptyLedger 5).result =
      .error .gatewayError) :=
  ⟨by decide,
    C9_confirm_execute_failure sampleExecFail (some sampleBasket) emptyLedger 5 (by decide)⟩

/-- C7: the gateway's string total is parsed as an exact decimal, never a
binary float: on the successful execute path, for a total string of the
form `i ++ "." ++ f` (digit sequences `i`, `f`), the amount stored in
the returned Source and PaymentEvent has rational value exactly
`i + f / 10 ^ |f|` (e.g. "19.99" ↦ 1999/100 exactly). -/
theorem C7_confirm_exact_decimal (payment : ExecuteResponse) (b : Basket)
    (ledger : LedgerState) (n : Nat) (txn : ExecTransaction) (rest : List ExecTransaction)
    (i f : List Char)
    (hsucc : payment.success = true)
    (htx : payment.transactions = txn :: rest)
    (hform : txn.amount.total.toList = i ++ '.' :: f)
    (hi : i.all Char.isDigit = true) (hf : f.all Char.isDigit = true) (hfne : f ≠ []) :
    ∃ src ev, (Paypal.handle_processor_response payment (some b) ledger n).result = .ok (src, ev) ∧
      src.amount_allocated.toRat = (natFromDigits i : ℚ) + (natFromDigits f : ℚ) / 10 ^ f.length ∧
      src.amount_debited = src.amount_allocated ∧
      ev.amount = src.amount_allocated := by
  have hparse := pyDecimalOfString_digits txn.amount.total i f hform hi hf hfne
  refine ⟨{ source_type := Paypal.NAME, currency := txn.amount.currency
            amount_allocated := ⟨(natFromDigits (i ++ f) : Int), f.length⟩
            amount_debited := ⟨(natFromDigits (i ++ f) : Int), f.length⟩
            reference := payment.id, label := payment.payer_email, card_type := none },
          { event_type := PaymentEventTypeName.PAID
            amount := ⟨(natFromDigits (i ++ f) : Int), f.length⟩
            reference := payment.id, processor_name := Paypal.NAME }, ?_, ?_, rfl, rfl⟩
  · unfold Paypal.handle_processor_response
    simp [hsucc, htx, hparse]
  · exact pyDecimal_digits_toRat i f

/-- Witness for C7 at the total string "19.99": the stored amount is
exactly 19 + 99/100. -/
theorem C7_witness :
    sampleExecOk.success = true ∧
    sampleExecOk.transactions = (⟨⟨"USD", "19.99"⟩⟩ : ExecTransaction) :: [] ∧
    (⟨⟨"USD", "19.99"⟩⟩ : ExecTransaction).amount.total.toList = ['1', '9'] ++ '.' :: ['9', '9'] ∧
    (['1', '9'].all Char.isDigit = true) ∧ (['9', '9'].all Char.isDigit = true) ∧
    (['9', '9'] ≠ ([] : List Char)) ∧
    ∃ src ev, (Paypal.handle_processor_response sampleExecOk (some sampleBasket) emptyLedger 1).result = .ok (src, ev) ∧
      src.amount_allocated.toRat =
        (natFromDigits ['1', '9'] : ℚ) + (natFromDigits ['9', '9'] : ℚ) / 10 ^ (['9', '9'] : List Char).length ∧
      src.amount_debited = src.amount_allocated ∧
      ev.amount = src.amount_allocated :=
  ⟨by decide, by decide, by decide, by decide, by decide, by decide,
    C7_confirm_exact_decimal sampleExecOk sampleBasket emptyLedger 1
      ⟨⟨"USD", "19.99"⟩⟩ [] ['1', '9'] ['9', '9']
      (by decide) (by decide) (by decide) (by decide) (by decide) (by decide)⟩

/-! ## Claim about the assignment-email endpoint -/

/-- C10: the claim says a request carrying all four parameters yields
200 (echoing them) when the transport succeeds, 500 when it fails, and
400 naming the missing parameters otherwise.  The code has none of
these behaviors: `get_request_value` is defined without `self`, so the
first validation call (line 41) raises `TypeError` on every request —
parameters present or not — and `except BadRequestException` does not
catch it, making the 400 branch dead code; the unbound names `_`
(line 91) and `email` (line 104) block the 200/500 paths even beyond
that.  Hence every POST, regardless of parameters and transport, ends
in an uncaught `TypeError` and never in a 200, 400 or 500 response. -/
theorem C10_email_endpoint_type_error :
    ∀ (request : EmailRequest) (mailOk : Bool),
      AssignmentEmail.post request mailOk =
        .uncaught (.typeError "get_request_value() takes at most 3 arguments (4 given)") :=
  fun _ _ => rfl

end Ecommerce
